import Mathlib

/-!
Shallow embedding of the DocGen-Pro front end (src/frontend/app.js).

The page state is modelled explicitly: the five dynamic collections of the
global `state` object become `CollectionState`, the text-input elements read
and written by the collection handlers become `Inputs`, and the scalar
generation fields become `DocInputs`.  Each event handler of the source is
translated into a pure state transformer; the JS string and array primitives
it relies on (`trim`, `split('\n')`, `join('\n')`, `splice(i, 1)`, `arr[i]`)
are embedded at the character-list level so that everything evaluates inside
the kernel.
-/

namespace DocGen

/-- JS `String.prototype.trim`: strip leading and trailing whitespace,
modelled on the character list of the string. -/
def jsTrim (s : String) : String :=
  String.mk (((s.data.dropWhile Char.isWhitespace).reverse.dropWhile Char.isWhitespace).reverse)

/-- JS `s.split('\n')` (used on the experience-bullets textarea):
`"".split('\n')` is `[""]`, otherwise the maximal chunks between newline
characters, in order. -/
def jsSplitNl (s : String) : List String :=
  (s.data.splitOn '\n').map String.mk

/-- JS `arr.join('\n')` (used by `editItem` to refill the bullets textarea). -/
def jsJoinNl (l : List String) : String :=
  String.mk (List.intercalate ['\n'] (l.map String.data))

/-- JS `Array.prototype.splice(start, 1)`: a negative `start` counts from the
end of the array (clamped at 0), a `start` past the end deletes nothing. -/
def spliceRemove (l : List α) (start : Int) : List α :=
  let actual : Nat :=
    if start < 0 then ((l.length : Int) + start).toNat
    else min start.toNat l.length
  l.take actual ++ l.drop (actual + 1)

/-- JS subscript `arr[i]`: the element for `0 <= i < length`, `undefined`
(here `none`) otherwise, including for negative `i`. -/
def jsIndex (l : List α) (i : Int) : Option α :=
  if 0 ≤ i then l.get? i.toNat else none

/-- An entry of `state.experience` (built in `addExp`). -/
structure ExperienceEntry where
  title : String
  company : String
  period : String
  bullets : List String
deriving DecidableEq

/-- An entry of `state.projects` (built in `addProj`). -/
structure ProjectEntry where
  name : String
  tech_stack : String
  description : String
deriving DecidableEq

/-- An entry of `state.education` (built in `addEdu`). -/
structure EducationEntry where
  degree : String
  institute : String
  year : String
  grade : String
deriving DecidableEq

/-- The global `state` object: the five dynamic collections. -/
structure CollectionState where
  skills : List String
  experience : List ExperienceEntry
  projects : List ProjectEntry
  education : List EducationEntry
  achievements : List String
deriving DecidableEq

/-- The `value` of each text input read and written by the collection
handlers, keyed by the element id used in the source. -/
structure Inputs where
  new_skill : String
  new_ach : String
  exp_title : String
  exp_company : String
  exp_period : String
  exp_bullets : String
  proj_name : String
  proj_stack : String
  proj_desc : String
  edu_degree : String
  edu_institute : String
  edu_year : String
  edu_grade : String
deriving DecidableEq

/-- `addSkill`: if the trimmed input is truthy (non-empty) push the trimmed
value and clear the input; otherwise do nothing — note the source has no
`else` branch here, so no alert is raised. -/
def addSkill (inp : Inputs) (st : CollectionState) :
    Inputs × CollectionState × Option String :=
  if jsTrim inp.new_skill ≠ "" then
    ({ inp with new_skill := "" },
     { st with skills := st.skills ++ [jsTrim inp.new_skill] }, none)
  else (inp, st, none)

/-- `addAch`: same shape as `addSkill`, on the achievements collection;
silent on validation failure. -/
def addAch (inp : Inputs) (st : CollectionState) :
    Inputs × CollectionState × Option String :=
  if jsTrim inp.new_ach ≠ "" then
    ({ inp with new_ach := "" },
     { st with achievements := st.achievements ++ [jsTrim inp.new_ach] }, none)
  else (inp, st, none)

/-- `addExp`: requires non-empty trimmed title and company; stores trimmed
title/company/period, splits the bullets textarea on newlines keeping the
non-blank lines as-is; clears the four inputs; alerts on failure. -/
def addExp (inp : Inputs) (st : CollectionState) :
    Inputs × CollectionState × Option String :=
  if jsTrim inp.exp_title ≠ "" ∧ jsTrim inp.exp_company ≠ "" then
    ({ inp with exp_title := "", exp_company := "", exp_period := "", exp_bullets := "" },
     { st with experience := st.experience ++
        [{ title := jsTrim inp.exp_title,
           company := jsTrim inp.exp_company,
           period := jsTrim inp.exp_period,
           bullets := (jsSplitNl inp.exp_bullets).filter (fun x => jsTrim x ≠ "") }] },
     none)
  else (inp, st, some "Job Title and Company are required.")

/-- `addProj`: requires a non-empty trimmed name; stores the three trimmed
fields; clears the inputs; alerts on failure. -/
def addProj (inp : Inputs) (st : CollectionState) :
    Inputs × CollectionState × Option String :=
  if jsTrim inp.proj_name ≠ "" then
    ({ inp with proj_name := "", proj_stack := "", proj_desc := "" },
     { st with projects := st.projects ++
        [{ name := jsTrim inp.proj_name,
           tech_stack := jsTrim inp.proj_stack,
           description := jsTrim inp.proj_desc }] },
     none)
  else (inp, st, some "Project Name is required.")

/-- `addEdu`: requires a non-empty trimmed degree; stores the four trimmed
fields; clears the inputs; alerts on failure. -/
def addEdu (inp : Inputs) (st : CollectionState) :
    Inputs × CollectionState × Option String :=
  if jsTrim inp.edu_degree ≠ "" then
    ({ inp with edu_degree := "", edu_institute := "", edu_year := "", edu_grade := "" },
     { st with education := st.education ++
        [{ degree := jsTrim inp.edu_degree,
           institute := jsTrim inp.edu_institute,
           year := jsTrim inp.edu_year,
           grade := jsTrim inp.edu_grade }] },
     none)
  else (inp, st, some "Degree is required.")

/-- `removeItem(listId, index)`: splice the addressed collection with JS
`splice(index, 1)` semantics; the listId comparisons mirror the source's
five sequential `if` statements. -/
def removeItem (listId : String) (index : Int) (st : CollectionState) : CollectionState :=
  let st1 := if listId = "skills-list" then
    { st with skills := spliceRemove st.skills index } else st
  let st2 := if listId = "experience-list" then
    { st1 with experience := spliceRemove st1.experience index } else st1
  let st3 := if listId = "project-list" then
    { st2 with projects := spliceRemove st2.projects index } else st2
  let st4 := if listId = "edu-list" then
    { st3 with education := spliceRemove st3.education index } else st3
  if listId = "ach-list" then
    { st4 with achievements := spliceRemove st4.achievements index } else st4

/-- `editItem(listId, index)`: read `state.<coll>[index]`, copy its fields
into the corresponding inputs, then splice it out.  For the two scalar
collections an out-of-range read yields `undefined`, which the DOM coerces
to the string `"undefined"` on assignment to `value`; for the three record
collections the field access on `undefined` throws a `TypeError` before any
input write or splice, modelled as `some "TypeError"` in the first component
with inputs and state returned untouched. -/
def editItem (listId : String) (index : Int) (inp : Inputs) (st : CollectionState) :
    Option String × Inputs × CollectionState :=
  if listId = "skills-list" then
    (none, { inp with new_skill := (jsIndex st.skills index).getD "undefined" },
     { st with skills := spliceRemove st.skills index })
  else if listId = "experience-list" then
    match jsIndex st.experience index with
    | none => (some "TypeError", inp, st)
    | some item =>
      (none,
       { inp with exp_title := item.title, exp_company := item.company,
                  exp_period := item.period, exp_bullets := jsJoinNl item.bullets },
       { st with experience := spliceRemove st.experience index })
  else if listId = "project-list" then
    match jsIndex st.projects index with
    | none => (some "TypeError", inp, st)
    | some item =>
      (none,
       { inp with proj_name := item.name, proj_stack := item.tech_stack,
                  proj_desc := item.description },
       { st with projects := spliceRemove st.projects index })
  else if listId = "edu-list" then
    match jsIndex st.education index with
    | none => (some "TypeError", inp, st)
    | some item =>
      (none,
       { inp with edu_degree := item.degree, edu_institute := item.institute,
                  edu_year := item.year,
                  edu_grade := if item.grade = "" then "" else item.grade },
       { st with education := spliceRemove st.education index })
  else if listId = "ach-list" then
    (none, { inp with new_ach := (jsIndex st.achievements index).getD "undefined" },
     { st with achievements := spliceRemove st.achievements index })
  else (none, inp, st)

/-- The scalar generation inputs read by `generateDocument`, keyed by element
id, plus the document-type selector and the AI-context textarea. -/
structure DocInputs where
  doc_type : String
  ai_context : String
  field_name : String
  field_email : String
  field_phone : String
  field_location : String
  field_summary : String
  sop_intro : String
  sop_academic : String
  sop_research : String
  sop_why_program : String
  sop_goals : String
  sop_conclusion : String
  letter_sender_name : String
  letter_sender_addr : String
  letter_receiver_name : String
  letter_receiver_addr : String
  letter_salutation : String
  letter_subject : String
  letter_date : String
  letter_body : String
  cont_party_a : String
  cont_party_b : String
  cont_date_a : String
  cont_date_b : String
  cont_scope : String
  cont_resp : String
  cont_payment : String
  cont_confidentiality : String
  cont_termination : String
  rep_title : String
  rep_author : String
  rep_date : String
  rep_summary : String
  rep_objectives : String
  rep_methodology : String
  rep_findings : String
  rep_recs : String
  rep_conclusion : String
deriving DecidableEq

/-- A value stored under a key of `payload.fields`: either a scalar input
string or one of the collections. -/
inductive FieldValue where
  | str : String → FieldValue
  | strList : List String → FieldValue
  | expList : List ExperienceEntry → FieldValue
  | projList : List ProjectEntry → FieldValue
  | eduList : List EducationEntry → FieldValue
deriving DecidableEq

/-- The request body built by `generateDocument`; `fields` is an ordered
key/value mapping reflecting JS object-key insertion order. -/
structure GenerationPayload where
  doc_type : String
  use_gemini : Bool
  ai_context : Option String
  fields : List (String × FieldValue)
  return_docx : Bool
deriving DecidableEq

/-- The own keys of the payload object serialized to JSON: the object literal
has exactly these five keys, and every later assignment mutates only the
nested `fields` object, never the top level. -/
def GenerationPayload.jsonKeys (_p : GenerationPayload) : List String :=
  ["doc_type", "use_gemini", "ai_context", "fields", "return_docx"]

/-- The `baseFields` object: the four identity inputs, always present. -/
def baseFields (d : DocInputs) : List (String × FieldValue) :=
  [("name", .str d.field_name), ("email", .str d.field_email),
   ("phone", .str d.field_phone), ("location", .str d.field_location)]

/-- Payload construction in `generateDocument` (lines 237-302): start from
the base identity fields, then extend `fields` according to the selected
document type; `use_gemini` and `ai_context` depend only on `currentMode`. -/
def buildPayload (currentMode : String) (d : DocInputs) (st : CollectionState) :
    GenerationPayload :=
  let base := baseFields d
  let fs :=
    if d.doc_type = "resume" then
      base ++ [("summary", .str d.field_summary),
               ("skills", .strList st.skills),
               ("experience_list", .expList st.experience),
               ("education", .eduList st.education),
               ("projects", .projList st.projects),
               ("achievements", .strList st.achievements)]
    else if d.doc_type = "sop" then
      base ++ [("applicant_name", .str d.field_name),
               ("intro", .str d.sop_intro),
               ("academic_background", .str d.sop_academic),
               ("research_experience", .str d.sop_research),
               ("why_program", .str d.sop_why_program),
               ("career_goals", .str d.sop_goals),
               ("conclusion", .str d.sop_conclusion)]
    else if d.doc_type = "letter" then
      base ++ [("sender_name", .str d.letter_sender_name),
               ("sender_address", .str d.letter_sender_addr),
               ("receiver_name", .str d.letter_receiver_name),
               ("receiver_address", .str d.letter_receiver_addr),
               ("receiver_salutation", .str d.letter_salutation),
               ("subject", .str d.letter_subject),
               ("date", .str d.letter_date),
               ("body", .str d.letter_body)]
    else if d.doc_type = "contract" then
      base ++ [("party_a", .str d.cont_party_a),
               ("party_b", .str d.cont_party_b),
               ("date_a", .str d.cont_date_a),
               ("date_b", .str d.cont_date_b),
               ("scope", .str d.cont_scope),
               ("responsibilities", .str d.cont_resp),
               ("payment_terms", .str d.cont_payment),
               ("confidentiality_clause", .str d.cont_confidentiality),
               ("termination_clause", .str d.cont_termination)]
    else if d.doc_type = "report" then
      base ++ [("title", .str d.rep_title),
               ("author", .str d.rep_author),
               ("date", .str d.rep_date),
               ("executive_summary", .str d.rep_summary),
               ("objectives", .str d.rep_objectives),
               ("methodology", .str d.rep_methodology),
               ("findings", .str d.rep_findings),
               ("recommendations", .str d.rep_recs),
               ("conclusion", .str d.rep_conclusion)]
    else base
  { doc_type := d.doc_type,
    use_gemini := currentMode = "guided",
    ai_context := if currentMode = "guided" then some d.ai_context else none,
    fields := fs,
    return_docx := false }

/-- The generation service's answer to the single POST: a binary artifact on
success, otherwise a non-ok response whose JSON body may carry a `detail`
message (`none` models an absent/undefined detail). -/
inductive GenResponse where
  | ok : GenResponse
  | err : Option String → GenResponse
deriving DecidableEq

/-- Observable outcome of one `generateDocument` run. -/
structure GenOutcome where
  payload : GenerationPayload
  alertMsg : Option String
  btnRestored : Bool
  finalInputs : DocInputs
  finalState : CollectionState
deriving DecidableEq

/-- `generateDocument`: build the payload, send it, and either expose the
artifact or alert `"Error: " + (err.detail || "Generation failed")`; the
`finally` block restores the trigger button on every path, and neither the
collections nor the scalar inputs are ever written. -/
def generateDocument (currentMode : String) (d : DocInputs) (st : CollectionState)
    (resp : GenResponse) : GenOutcome :=
  let payload := buildPayload currentMode d st
  match resp with
  | .ok =>
    { payload := payload, alertMsg := none, btnRestored := true,
      finalInputs := d, finalState := st }
  | .err detail =>
    let msg := match detail with
      | some s => if s = "" then "Generation failed" else s
      | none => "Generation failed"
    { payload := payload, alertMsg := some ("Error: " ++ msg), btnRestored := true,
      finalInputs := d, finalState := st }

/-- Inputs record with every field empty, for concrete instantiations. -/
def emptyInputs : Inputs :=
  { new_skill := "", new_ach := "", exp_title := "", exp_company := "",
    exp_period := "", exp_bullets := "", proj_name := "", proj_stack := "",
    proj_desc := "", edu_degree := "", edu_institute := "", edu_year := "",
    edu_grade := "" }

/-- Collection state with all five collections empty. -/
def emptyState : CollectionState :=
  { skills := [], experience := [], projects := [], education := [],
    achievements := [] }

/-- Scalar generation inputs with every field empty and `doc_type = resume`. -/
def emptyDocInputs : DocInputs :=
  { doc_type := "resume", ai_context := "", field_name := "", field_email := "",
    field_phone := "", field_location := "", field_summary := "",
    sop_intro := "", sop_academic := "", sop_research := "",
    sop_why_program := "", sop_goals := "", sop_conclusion := "",
    letter_sender_name := "", letter_sender_addr := "",
    letter_receiver_name := "", letter_receiver_addr := "",
    letter_salutation := "", letter_subject := "", letter_date := "",
    letter_body := "", cont_party_a := "", cont_party_b := "",
    cont_date_a := "", cont_date_b := "", cont_scope := "", cont_resp := "",
    cont_payment := "", cont_confidentiality := "", cont_termination := "",
    rep_title := "", rep_author := "", rep_date := "", rep_summary := "",
    rep_objectives := "", rep_methodology := "", rep_findings := "",
    rep_recs := "", rep_conclusion := "" }

/-- A scalar as `addSkill`/`addAch` stores it: trimmed and non-empty. -/
abbrev NormStr (s : String) : Prop := jsTrim s = s ∧ s ≠ ""

/-- A bullet line as `addExp` stores it: not blank and newline-free. -/
abbrev NormBullet (b : String) : Prop := jsTrim b ≠ "" ∧ '\n' ∉ b.data

/-- An experience entry as `addExp` stores it. -/
abbrev NormExp (e : ExperienceEntry) : Prop :=
  jsTrim e.title = e.title ∧ e.title ≠ "" ∧
  jsTrim e.company = e.company ∧ e.company ≠ "" ∧
  jsTrim e.period = e.period ∧ ∀ b ∈ e.bullets, NormBullet b

/-- A project entry as `addProj` stores it. -/
abbrev NormProj (p : ProjectEntry) : Prop :=
  jsTrim p.name = p.name ∧ p.name ≠ "" ∧
  jsTrim p.tech_stack = p.tech_stack ∧ jsTrim p.description = p.description

/-- An education entry as `addEdu` stores it. -/
abbrev NormEdu (e : EducationEntry) : Prop :=
  jsTrim e.degree = e.degree ∧ e.degree ≠ "" ∧
  jsTrim e.institute = e.institute ∧ jsTrim e.year = e.year ∧
  jsTrim e.grade = e.grade

lemma spliceRemove_nat (l : List α) (k : Nat) (hk : k < l.length) :
    spliceRemove l (k : Int) = l.take k ++ l.drop (k + 1) := by
  have h0 : ¬ ((k : Int) < 0) := by omega
  simp only [spliceRemove, if_neg h0, Int.toNat_ofNat]
  rw [Nat.min_eq_left (Nat.le_of_lt hk)]

lemma spliceRemove_ge (l : List α) (i : Int) (hi : (l.length : Int) ≤ i) :
    spliceRemove l i = l := by
  have h0 : ¬ (i < 0) := by omega
  have hmin : min i.toNat l.length = l.length := by omega
  simp only [spliceRemove, if_neg h0, hmin]
  rw [List.take_length, List.drop_eq_nil_of_le (by omega), List.append_nil]

lemma jsIndex_natCast (l : List α) (k : Nat) : jsIndex l (k : Int) = l.get? k := by
  have h0 : 0 ≤ (k : Int) := by omega
  simp [jsIndex, if_pos h0]

lemma jsIndex_ge (l : List α) (i : Int) (hi : (l.length : Int) ≤ i) :
    jsIndex l i = none := by
  have h0 : 0 ≤ i := by omega
  simp only [jsIndex, if_pos h0]
  exact List.get?_eq_none.mpr (by omega)

lemma splitNl_joinNl (bs : List String) (h : ∀ b ∈ bs, '\n' ∉ b.data)
    (hne : bs ≠ []) : jsSplitNl (jsJoinNl bs) = bs := by
  unfold jsSplitNl jsJoinNl
  have hd : (String.mk (List.intercalate ['\n'] (bs.map String.data))).data
      = List.intercalate ['\n'] (bs.map String.data) := rfl
  rw [hd]
  have hx : ∀ l ∈ bs.map String.data, '\n' ∉ l := by
    intro l hl
    obtain ⟨b, hb, hbe⟩ := List.mem_map.mp hl
    rw [← hbe]
    exact h b hb
  have hls : bs.map String.data ≠ [] := by simpa using hne
  rw [List.splitOn_intercalate (bs.map String.data) '\n' hx hls, List.map_map]
  exact List.map_id bs

lemma bullets_roundtrip (bs : List String) (h : ∀ b ∈ bs, NormBullet b) :
    (jsSplitNl (jsJoinNl bs)).filter (fun x => jsTrim x ≠ "") = bs := by
  cases bs with
  | nil => decide
  | cons b tl =>
    rw [splitNl_joinNl (b :: tl) (fun x hx => (h x hx).2) (by simp)]
    refine List.filter_eq_self.mpr ?_
    intro a ha
    simpa using (h a ha).1

lemma head?_dropWhile (p : α → Bool) (l : List α) :
    ∀ c, (l.dropWhile p).head? = some c → p c = false := by
  induction l with
  | nil => intro c hc; simp [List.dropWhile] at hc
  | cons a t ih =>
    intro c hc
    by_cases hpa : p a
    · rw [List.dropWhile_cons_of_pos hpa] at hc
      exact ih c hc
    · rw [List.dropWhile_cons_of_neg hpa] at hc
      simp only [List.head?_cons, Option.some.injEq] at hc
      rw [← hc]
      exact Bool.eq_false_iff.mpr hpa

lemma getLast?_dropWhile (p : α → Bool) (l : List α) (h : l.dropWhile p ≠ []) :
    (l.dropWhile p).getLast? = l.getLast? := by
  induction l with
  | nil => simp [List.dropWhile] at h
  | cons a t ih =>
    by_cases hpa : p a
    · rw [List.dropWhile_cons_of_pos hpa] at h ⊢
      have ht : t ≠ [] := by
        intro he
        rw [he] at h
        simp [List.dropWhile] at h
      rw [ih h]
      cases t with
      | nil => exact absurd rfl ht
      | cons b t2 => rw [List.getLast?_cons_cons]
    · rw [List.dropWhile_cons_of_neg hpa]

lemma jsTrim_ends (s : String) :
    (∀ c, (jsTrim s).data.head? = some c → c.isWhitespace = false) ∧
    (∀ c, (jsTrim s).data.getLast? = some c → c.isWhitespace = false) := by
  have hdata : (jsTrim s).data
      = ((s.data.dropWhile Char.isWhitespace).reverse.dropWhile Char.isWhitespace).reverse :=
    rfl
  constructor
  · intro c hc
    rw [hdata, List.head?_reverse] at hc
    by_cases hm : (s.data.dropWhile Char.isWhitespace).reverse.dropWhile Char.isWhitespace = []
    · rw [hm] at hc
      simp at hc
    · rw [getLast?_dropWhile Char.isWhitespace _ hm, List.getLast?_reverse] at hc
      exact head?_dropWhile Char.isWhitespace s.data c hc
  · intro c hc
    rw [hdata, List.getLast?_reverse] at hc
    exact head?_dropWhile Char.isWhitespace _ c hc

/-- C1: for every document type in resume/sop/letter/contract/report, the
`fields` mapping of the constructed payload contains exactly the keys of that
type plus the four base identity fields (name, email, phone, location) and no
others, in insertion order; for `sop` the `applicant_name` entry equals the
base `name` value. -/
theorem payload_fields_exact_keys (currentMode : String) (d : DocInputs)
    (st : CollectionState) :
    (buildPayload currentMode { d with doc_type := "resume" } st).fields.map Prod.fst =
      ["name", "email", "phone", "location", "summary", "skills",
       "experience_list", "education", "projects", "achievements"] ∧
    (buildPayload currentMode { d with doc_type := "sop" } st).fields.map Prod.fst =
      ["name", "email", "phone", "location", "applicant_name", "intro",
       "academic_background", "research_experience", "why_program",
       "career_goals", "conclusion"] ∧
    (buildPayload currentMode { d with doc_type := "letter" } st).fields.map Prod.fst =
      ["name", "email", "phone", "location", "sender_name", "sender_address",
       "receiver_name", "receiver_address", "receiver_salutation", "subject",
       "date", "body"] ∧
    (buildPayload currentMode { d with doc_type := "contract" } st).fields.map Prod.fst =
      ["name", "email", "phone", "location", "party_a", "party_b", "date_a",
       "date_b", "scope", "responsibilities", "payment_terms",
       "confidentiality_clause", "termination_clause"] ∧
    (buildPayload currentMode { d with doc_type := "report" } st).fields.map Prod.fst =
      ["name", "email", "phone", "location", "title", "author", "date",
       "executive_summary", "objectives", "methodology", "findings",
       "recommendations", "conclusion"] ∧
    List.lookup "applicant_name"
        (buildPayload currentMode { d with doc_type := "sop" } st).fields =
      some (.str d.field_name) ∧
    List.lookup "name"
        (buildPayload currentMode { d with doc_type := "sop" } st).fields =
      some (.str d.field_name) :=
  ⟨rfl, rfl, rfl, rfl, rfl, rfl, rfl⟩

/-- C7: for every collection and valid item, add appends the item at the last
position, leaves every other stored item (and the other collections)
unchanged, and increases the length by exactly one. -/
theorem add_appends (inp : Inputs) (st : CollectionState) :
    (jsTrim inp.new_skill ≠ "" →
      (addSkill inp st).2.1 = { st with skills := st.skills ++ [jsTrim inp.new_skill] } ∧
      (addSkill inp st).2.1.skills.length = st.skills.length + 1) ∧
    (jsTrim inp.new_ach ≠ "" →
      (addAch inp st).2.1 =
        { st with achievements := st.achievements ++ [jsTrim inp.new_ach] } ∧
      (addAch inp st).2.1.achievements.length = st.achievements.length + 1) ∧
    (jsTrim inp.exp_title ≠ "" → jsTrim inp.exp_company ≠ "" →
      (addExp inp st).2.1 = { st with experience := st.experience ++
        [{ title := jsTrim inp.exp_title, company := jsTrim inp.exp_company,
           period := jsTrim inp.exp_period,
           bullets := (jsSplitNl inp.exp_bullets).filter (fun x => jsTrim x ≠ "") }] } ∧
      (addExp inp st).2.1.experience.length = st.experience.length + 1) ∧
    (jsTrim inp.proj_name ≠ "" →
      (addProj inp st).2.1 = { st with projects := st.projects ++
        [{ name := jsTrim inp.proj_name, tech_stack := jsTrim inp.proj_stack,
           description := jsTrim inp.proj_desc }] } ∧
      (addProj inp st).2.1.projects.length = st.projects.length + 1) ∧
    (jsTrim inp.edu_degree ≠ "" →
      (addEdu inp st).2.1 = { st with education := st.education ++
        [{ degree := jsTrim inp.edu_degree, institute := jsTrim inp.edu_institute,
           year := jsTrim inp.edu_year, grade := jsTrim inp.edu_grade }] } ∧
      (addEdu inp st).2.1.education.length = st.education.length + 1) := by
  refine ⟨fun h => ?_, fun h => ?_, fun h1 h2 => ?_, fun h => ?_, fun h => ?_⟩
  · simp [addSkill, if_pos h]
  · simp [addAch, if_pos h]
  · simp [addExp, if_pos (And.intro h1 h2)]
  · simp [addProj, if_pos h]
  · simp [addEdu, if_pos h]

/-- C7 witness: adding concrete valid items to concrete collections. -/
theorem add_appends_witness :
    jsTrim "Go" ≠ "" ∧
    (addSkill { emptyInputs with new_skill := "Go" }
        { emptyState with skills := ["Python"] }).2.1 =
      { emptyState with skills := ["Python", "Go"] } :=
  ⟨by decide, by
    have h := (add_appends { emptyInputs with new_skill := "Go" }
      { emptyState with skills := ["Python"] }).1 (by decide)
    exact h.1⟩

/-- C8: for every collection and valid index k, remove deletes exactly the
item at position k, keeps the other collections and the relative order of the
remaining items, and decreases the length by exactly one. -/
theorem remove_valid_index (st : CollectionState) (k : Nat) :
    (k < st.skills.length →
      removeItem "skills-list" (k : Int) st =
        { st with skills := st.skills.take k ++ st.skills.drop (k + 1) } ∧
      (removeItem "skills-list" (k : Int) st).skills.length + 1 = st.skills.length) ∧
    (k < st.experience.length →
      removeItem "experience-list" (k : Int) st =
        { st with experience := st.experience.take k ++ st.experience.drop (k + 1) } ∧
      (removeItem "experience-list" (k : Int) st).experience.length + 1
        = st.experience.length) ∧
    (k < st.projects.length →
      removeItem "project-list" (k : Int) st =
        { st with projects := st.projects.take k ++ st.projects.drop (k + 1) } ∧
      (removeItem "project-list" (k : Int) st).projects.length + 1
        = st.projects.length) ∧
    (k < st.education.length →
      removeItem "edu-list" (k : Int) st =
        { st with education := st.education.take k ++ st.education.drop (k + 1) } ∧
      (removeItem "edu-list" (k : Int) st).education.length + 1
        = st.education.length) ∧
    (k < st.achievements.length →
      removeItem "ach-list" (k : Int) st =
        { st with achievements := st.achievements.take k ++ st.achievements.drop (k + 1) } ∧
      (removeItem "ach-list" (k : Int) st).achievements.length + 1
        = st.achievements.length) := by
  refine ⟨fun h => ?_, fun h => ?_, fun h => ?_, fun h => ?_, fun h => ?_⟩ <;>
    refine ⟨?_, ?_⟩ <;>
    simp [removeItem, spliceRemove_nat _ _ h, List.length_take, List.length_drop] <;>
    omega

/-- C8 witness: removing index 0 from a two-element skills collection. -/
theorem remove_valid_index_witness :
    (0 : Nat) < (["Python", "Go"] : List String).length ∧
    removeItem "skills-list" 0 { emptyState with skills := ["Python", "Go"] } =
      { emptyState with skills := ["Go"] } :=
  ⟨by decide, by
    have h := ((remove_valid_index
      { emptyState with skills := ["Python", "Go"] } 0).1 (by decide)).1
    simpa using h⟩

/-- C10: after every successful add, all the scalar inputs the added item was
built from are reset to empty text; after a validation-rejected add they are
left unchanged. -/
theorem add_resets_inputs (inp : Inputs) (st : CollectionState) :
    (jsTrim inp.new_skill ≠ "" → (addSkill inp st).1 = { inp with new_skill := "" }) ∧
    (jsTrim inp.new_skill = "" → (addSkill inp st).1 = inp) ∧
    (jsTrim inp.new_ach ≠ "" → (addAch inp st).1 = { inp with new_ach := "" }) ∧
    (jsTrim inp.new_ach = "" → (addAch inp st).1 = inp) ∧
    (jsTrim inp.exp_title ≠ "" → jsTrim inp.exp_company ≠ "" →
      (addExp inp st).1 = { inp with exp_title := "", exp_company := "",
                                     exp_period := "", exp_bullets := "" }) ∧
    ((jsTrim inp.exp_title = "" ∨ jsTrim inp.exp_company = "") →
      (addExp inp st).1 = inp) ∧
    (jsTrim inp.proj_name ≠ "" →
      (addProj inp st).1 = { inp with proj_name := "", proj_stack := "", proj_desc := "" }) ∧
    (jsTrim inp.proj_name = "" → (addProj inp st).1 = inp) ∧
    (jsTrim inp.edu_degree ≠ "" →
      (addEdu inp st).1 = { inp with edu_degree := "", edu_institute := "",
                                     edu_year := "", edu_grade := "" }) ∧
    (jsTrim inp.edu_degree = "" → (addEdu inp st).1 = inp) := by
  refine ⟨fun h => ?_, fun h => ?_, fun h => ?_, fun h => ?_, fun h1 h2 => ?_,
    fun h => ?_, fun h => ?_, fun h => ?_, fun h => ?_, fun h => ?_⟩
  · simp [addSkill, if_pos h]
  · simp [addSkill, h]
  · simp [addAch, if_pos h]
  · simp [addAch, h]
  · simp [addExp, if_pos (And.intro h1 h2)]
  · have hn : ¬ (jsTrim inp.exp_title ≠ "" ∧ jsTrim inp.exp_company ≠ "") := by
      rcases h with h | h <;> simp [h]
    simp [addExp, if_neg hn]
  · simp [addProj, if_pos h]
  · simp [addProj, h]
  · simp [addEdu, if_pos h]
  · simp [addEdu, h]

/-- C10 witness: a successful skill add clears the input, a whitespace-only
skill add leaves it unchanged. -/
theorem add_resets_inputs_witness :
    jsTrim "Go" ≠ "" ∧
    (addSkill { emptyInputs with new_skill := "Go" } emptyState).1 = emptyInputs ∧
    jsTrim " " = "" ∧
    (addSkill { emptyInputs with new_skill := " " } emptyState).1 =
      { emptyInputs with new_skill := " " } :=
  ⟨by decide,
   by
     have h := (add_resets_inputs { emptyInputs with new_skill := "Go" } emptyState).1
       (by decide)
     simpa using h,
   by decide,
   (add_resets_inputs { emptyInputs with new_skill := " " } emptyState).2.1 (by decide)⟩

/-- C4 counterexample: the constructed payload has no `use_ai` top-level key;
the AI flag is serialized as `use_gemini`. -/
theorem payload_top_keys_not_use_ai :
    "use_ai" ∉ (buildPayload "manual" emptyDocInputs emptyState).jsonKeys ∧
    (buildPayload "manual" emptyDocInputs emptyState).jsonKeys =
      ["doc_type", "use_gemini", "ai_context", "fields", "return_docx"] := by
  decide

/-- C4 amended: every constructed payload has exactly the top-level keys
doc_type, use_gemini, ai_context, fields, return_docx; in manual mode
`use_gemini` is false and `ai_context` is null, in guided (AI-assisted) mode
`use_gemini` is true and `ai_context` is exactly the AI-context input, empty
text included; `return_docx` is always false. -/
theorem payload_top_level_shape (currentMode : String) (d : DocInputs)
    (st : CollectionState) :
    (buildPayload currentMode d st).jsonKeys =
      ["doc_type", "use_gemini", "ai_context", "fields", "return_docx"] ∧
    (currentMode ≠ "guided" →
      (buildPayload currentMode d st).use_gemini = false ∧
      (buildPayload currentMode d st).ai_context = none) ∧
    (buildPayload "guided" d st).use_gemini = true ∧
    (buildPayload "guided" d st).ai_context = some d.ai_context ∧
    (buildPayload currentMode d st).return_docx = false := by
  refine ⟨rfl, fun h => ⟨?_, ?_⟩, rfl, rfl, rfl⟩
  · simp [buildPayload, h]
  · simp [buildPayload, h]

/-- C4 witness: the manual-mode hypothesis discharged at mode "manual". -/
theorem payload_top_level_shape_witness :
    (buildPayload "manual" emptyDocInputs emptyState).use_gemini = false ∧
    (buildPayload "manual" emptyDocInputs emptyState).ai_context = none :=
  (payload_top_level_shape "manual" emptyDocInputs emptyState).2.1 (by decide)

/-- C5 counterexample: a whitespace-only skill (or achievement) add is
rejected with no user-facing message at all — the source's `addSkill` and
`addAch` have no `else` branch, so the claim's "a user-facing message is
reported" fails for these two collections. -/
theorem addSkill_silent_rejection :
    jsTrim " " = "" ∧
    addSkill { emptyInputs with new_skill := " " } emptyState =
      ({ emptyInputs with new_skill := " " }, emptyState, none) ∧
    addAch { emptyInputs with new_ach := " " } emptyState =
      ({ emptyInputs with new_ach := " " }, emptyState, none) := by
  decide

/-- C5 amended: on a validation-failed add no collection is ever mutated and
the inputs are untouched; experience, project and education adds report
their alert message, while skill and achievement adds are rejected
silently (no message). -/
theorem add_validation_failure (inp : Inputs) (st : CollectionState) :
    (jsTrim inp.new_skill = "" → addSkill inp st = (inp, st, none)) ∧
    (jsTrim inp.new_ach = "" → addAch inp st = (inp, st, none)) ∧
    ((jsTrim inp.exp_title = "" ∨ jsTrim inp.exp_company = "") →
      addExp inp st = (inp, st, some "Job Title and Company are required.")) ∧
    (jsTrim inp.proj_name = "" →
      addProj inp st = (inp, st, some "Project Name is required.")) ∧
    (jsTrim inp.edu_degree = "" →
      addEdu inp st = (inp, st, some "Degree is required.")) := by
  refine ⟨fun h => ?_, fun h => ?_, fun h => ?_, fun h => ?_, fun h => ?_⟩
  · simp [addSkill, h]
  · simp [addAch, h]
  · have hn : ¬ (jsTrim inp.exp_title ≠ "" ∧ jsTrim inp.exp_company ≠ "") := by
      rcases h with h | h <;> simp [h]
    simp [addExp, if_neg hn]
  · simp [addProj, h]
  · simp [addEdu, h]

/-- C5 witness: concrete rejected adds on every collection. -/
theorem add_validation_failure_witness :
    jsTrim "" = "" ∧
    addExp emptyInputs emptyState =
      (emptyInputs, emptyState, some "Job Title and Company are required.") ∧
    addProj emptyInputs emptyState =
      (emptyInputs, emptyState, some "Project Name is required.") ∧
    addEdu emptyInputs emptyState =
      (emptyInputs, emptyState, some "Degree is required.") ∧
    addSkill emptyInputs emptyState = (emptyInputs, emptyState, none) :=
  ⟨by decide,
   (add_validation_failure emptyInputs emptyState).2.2.1 (Or.inl (by decide)),
   (add_validation_failure emptyInputs emptyState).2.2.2.1 (by decide),
   (add_validation_failure emptyInputs emptyState).2.2.2.2 (by decide),
   (add_validation_failure emptyInputs emptyState).1 (by decide)⟩

/-- C6 counterexample: `removeItem` with the out-of-range index `-1` on a
one-element skills collection deletes the last item — JS `splice` treats a
negative start as counting from the end, so the state is silently mutated
rather than left unchanged. -/
theorem remove_negative_index_mutates :
    removeItem "skills-list" (-1) { emptyState with skills := ["a"] } ≠
      { emptyState with skills := ["a"] } ∧
    (removeItem "skills-list" (-1) { emptyState with skills := ["a"] }).skills = [] := by
  decide

/-- C6 amended: for every collection, remove or edit with an index at or past
the length leaves every collection unchanged (for the three record
collections, edit throws a TypeError before mutating anything); the original
claim fails only for negative indexes, which JS splice counts from the end
of the array, e.g. remove(C, -1) deletes the last item. -/
theorem remove_edit_big_index_noop (inp : Inputs) (st : CollectionState) (i : Int) :
    ((st.skills.length : Int) ≤ i → removeItem "skills-list" i st = st) ∧
    ((st.experience.length : Int) ≤ i → removeItem "experience-list" i st = st) ∧
    ((st.projects.length : Int) ≤ i → removeItem "project-list" i st = st) ∧
    ((st.education.length : Int) ≤ i → removeItem "edu-list" i st = st) ∧
    ((st.achievements.length : Int) ≤ i → removeItem "ach-list" i st = st) ∧
    ((st.skills.length : Int) ≤ i →
      editItem "skills-list" i inp st =
        (none, { inp with new_skill := "undefined" }, st)) ∧
    ((st.experience.length : Int) ≤ i →
      editItem "experience-list" i inp st = (some "TypeError", inp, st)) ∧
    ((st.projects.length : Int) ≤ i →
      editItem "project-list" i inp st = (some "TypeError", inp, st)) ∧
    ((st.education.length : Int) ≤ i →
      editItem "edu-list" i inp st = (some "TypeError", inp, st)) ∧
    ((st.achievements.length : Int) ≤ i →
      editItem "ach-list" i inp st =
        (none, { inp with new_ach := "undefined" }, st)) := by
  refine ⟨fun h => ?_, fun h => ?_, fun h => ?_, fun h => ?_, fun h => ?_,
    fun h => ?_, fun h => ?_, fun h => ?_, fun h => ?_, fun h => ?_⟩ <;>
    simp [removeItem, editItem, spliceRemove_ge _ _ h, jsIndex_ge _ _ h]

/-- C6 witness: index 5 on a one-element skills collection and on an empty
experience collection. -/
theorem remove_edit_big_index_noop_witness :
    ((["a"] : List String).length : Int) ≤ 5 ∧
    removeItem "skills-list" 5 { emptyState with skills := ["a"] } =
      { emptyState with skills := ["a"] } ∧
    editItem "experience-list" 5 emptyInputs { emptyState with skills := ["a"] } =
      (some "TypeError", emptyInputs, { emptyState with skills := ["a"] }) :=
  ⟨by decide,
   (remove_edit_big_index_noop emptyInputs { emptyState with skills := ["a"] } 5).1
     (by decide),
   (remove_edit_big_index_noop emptyInputs { emptyState with skills := ["a"] } 5).2.2.2.2.2.2.1
     (by decide)⟩

/-- C3 counterexample: a failure response with detail "Generation failed"
makes the client alert the string "Error: Generation failed", not the exact
detail message alone. -/
theorem failure_alert_not_exact_detail :
    (generateDocument "manual" emptyDocInputs emptyState
        (.err (some "Generation failed"))).alertMsg =
      some "Error: Generation failed" ∧
    (generateDocument "manual" emptyDocInputs emptyState
        (.err (some "Generation failed"))).alertMsg ≠
      some "Generation failed" := by
  decide

/-- C3 amended: on a failed submission all collections and scalar inputs are
unchanged and the alert text is the service's detail message prefixed with
"Error: " (with "Generation failed" as the detail fallback when none or an
empty one is provided); on every outcome, success or failure, the trigger
control is restored to its original label and re-enabled. -/
theorem failure_path_state_and_alert (currentMode : String) (d : DocInputs)
    (st : CollectionState) (detail : Option String) :
    (generateDocument currentMode d st (.err detail)).finalState = st ∧
    (generateDocument currentMode d st (.err detail)).finalInputs = d ∧
    (generateDocument currentMode d st (.err detail)).btnRestored = true ∧
    (generateDocument currentMode d st .ok).btnRestored = true ∧
    (generateDocument currentMode d st .ok).finalState = st ∧
    (∀ s, s ≠ "" → detail = some s →
      (generateDocument currentMode d st (.err detail)).alertMsg =
        some ("Error: " ++ s)) ∧
    ((detail = none ∨ detail = some "") →
      (generateDocument currentMode d st (.err detail)).alertMsg =
        some "Error: Generation failed") := by
  refine ⟨rfl, rfl, rfl, rfl, rfl, fun s hs hd => ?_, fun hd => ?_⟩
  · subst hd
    simp [generateDocument, hs]
  · rcases hd with hd | hd <;> subst hd <;> simp [generateDocument]

/-- C3 witness: the failure branch at the concrete detail "boom" and at an
absent detail. -/
theorem failure_path_state_and_alert_witness :
    (generateDocument "manual" emptyDocInputs emptyState (.err (some "boom"))).finalState =
      emptyState ∧
    (generateDocument "manual" emptyDocInputs emptyState (.err (some "boom"))).alertMsg =
      some "Error: boom" ∧
    (generateDocument "manual" emptyDocInputs emptyState (.err none)).alertMsg =
      some "Error: Generation failed" :=
  ⟨(failure_path_state_and_alert "manual" emptyDocInputs emptyState (some "boom")).1,
   (failure_path_state_and_alert "manual" emptyDocInputs emptyState
      (some "boom")).2.2.2.2.2.1 "boom" (by decide) rfl,
   (failure_path_state_and_alert "manual" emptyDocInputs emptyState
      none).2.2.2.2.2.2 (Or.inl rfl)⟩

/-- C9: every scalar stored by an add is the input with surrounding
whitespace removed (`jsTrim`); a whitespace-only string trims to empty, so a
whitespace-only required field fails validation and nothing is mutated; a
trimmed value never starts or ends with whitespace; experience bullets are
kept as-is apart from discarding blank lines. -/
theorem add_stores_trimmed (inp : Inputs) (st : CollectionState) :
    (jsTrim inp.new_skill ≠ "" →
      (addSkill inp st).2.1.skills = st.skills ++ [jsTrim inp.new_skill]) ∧
    (jsTrim inp.new_ach ≠ "" →
      (addAch inp st).2.1.achievements = st.achievements ++ [jsTrim inp.new_ach]) ∧
    (jsTrim inp.exp_title ≠ "" → jsTrim inp.exp_company ≠ "" →
      (addExp inp st).2.1.experience = st.experience ++
        [{ title := jsTrim inp.exp_title, company := jsTrim inp.exp_company,
           period := jsTrim inp.exp_period,
           bullets := (jsSplitNl inp.exp_bullets).filter (fun x => jsTrim x ≠ "") }]) ∧
    (jsTrim inp.proj_name ≠ "" →
      (addProj inp st).2.1.projects = st.projects ++
        [{ name := jsTrim inp.proj_name, tech_stack := jsTrim inp.proj_stack,
           description := jsTrim inp.proj_desc }]) ∧
    (jsTrim inp.edu_degree ≠ "" →
      (addEdu inp st).2.1.education = st.education ++
        [{ degree := jsTrim inp.edu_degree, institute := jsTrim inp.edu_institute,
           year := jsTrim inp.edu_year, grade := jsTrim inp.edu_grade }]) ∧
    (∀ s : String, (∀ c ∈ s.data, c.isWhitespace = true) → jsTrim s = "") ∧
    (jsTrim inp.new_skill = "" → (addSkill inp st).2.1 = st) ∧
    (∀ s : String, ∀ c, (jsTrim s).data.head? = some c → c.isWhitespace = false) ∧
    (∀ s : String, ∀ c, (jsTrim s).data.getLast? = some c → c.isWhitespace = false) := by
  refine ⟨fun h => ?_, fun h => ?_, fun h1 h2 => ?_, fun h => ?_, fun h => ?_,
    fun s hs => ?_, fun h => ?_, fun s => (jsTrim_ends s).1, fun s => (jsTrim_ends s).2⟩
  · simp [addSkill, if_pos h]
  · simp [addAch, if_pos h]
  · simp [addExp, if_pos (And.intro h1 h2)]
  · simp [addProj, if_pos h]
  · simp [addEdu, if_pos h]
  · have h1 : s.data.dropWhile Char.isWhitespace = [] :=
      List.dropWhile_eq_nil_iff.mpr hs
    simp [jsTrim, h1]
  · simp [addSkill, h]

/-- C9 witness: a padded skill is stored trimmed; a whitespace-only skill is
rejected with no mutation. -/
theorem add_stores_trimmed_witness :
    jsTrim "  Py " ≠ "" ∧
    (addSkill { emptyInputs with new_skill := "  Py " } emptyState).2.1.skills = ["Py"] ∧
    (addSkill { emptyInputs with new_skill := " \t " } emptyState).2.1 = emptyState :=
  ⟨by decide,
   by
     have h := (add_stores_trimmed { emptyInputs with new_skill := "  Py " }
       emptyState).1 (by decide)
     simpa using h,
   (add_stores_trimmed { emptyInputs with new_skill := " \t " } emptyState).2.2.2.2.2.2.1
     (by decide)⟩

/-- C2: for every collection and valid index k (holding an item as `add`
stores them), edit removes the item at k — the length decreases by one — and
copies its fields into the corresponding scalar inputs; a subsequent add with
those inputs unmodified appends an item equal to the original at the end of
the collection, not at position k. -/
theorem edit_then_add_roundtrip :
    (∀ (inp : Inputs) (st : CollectionState) (k : Nat) (item : String),
      st.skills.get? k = some item → NormStr item →
      editItem "skills-list" (k : Int) inp st =
        (none, { inp with new_skill := item },
         { st with skills := st.skills.take k ++ st.skills.drop (k + 1) }) ∧
      addSkill { inp with new_skill := item }
          { st with skills := st.skills.take k ++ st.skills.drop (k + 1) } =
        ({ inp with new_skill := "" },
         { st with skills := (st.skills.take k ++ st.skills.drop (k + 1)) ++ [item] },
         none) ∧
      (st.skills.take k ++ st.skills.drop (k + 1)).length + 1 = st.skills.length) ∧
    (∀ (inp : Inputs) (st : CollectionState) (k : Nat) (item : ExperienceEntry),
      st.experience.get? k = some item → NormExp item →
      editItem "experience-list" (k : Int) inp st =
        (none, { inp with exp_title := item.title, exp_company := item.company,
                          exp_period := item.period,
                          exp_bullets := jsJoinNl item.bullets },
         { st with experience := st.experience.take k ++ st.experience.drop (k + 1) }) ∧
      addExp { inp with exp_title := item.title, exp_company := item.company,
                        exp_period := item.period,
                        exp_bullets := jsJoinNl item.bullets }
          { st with experience := st.experience.take k ++ st.experience.drop (k + 1) } =
        ({ inp with exp_title := "", exp_company := "", exp_period := "",
                    exp_bullets := "" },
         { st with experience :=
            (st.experience.take k ++ st.experience.drop (k + 1)) ++ [item] },
         none) ∧
      (st.experience.take k ++ st.experience.drop (k + 1)).length + 1
        = st.experience.length) ∧
    (∀ (inp : Inputs) (st : CollectionState) (k : Nat) (item : ProjectEntry),
      st.projects.get? k = some item → NormProj item →
      editItem "project-list" (k : Int) inp st =
        (none, { inp with proj_name := item.name, proj_stack := item.tech_stack,
                          proj_desc := item.description },
         { st with projects := st.projects.take k ++ st.projects.drop (k + 1) }) ∧
      addProj { inp with proj_name := item.name, proj_stack := item.tech_stack,
                         proj_desc := item.description }
          { st with projects := st.projects.take k ++ st.projects.drop (k + 1) } =
        ({ inp with proj_name := "", proj_stack := "", proj_desc := "" },
         { st with projects :=
            (st.projects.take k ++ st.projects.drop (k + 1)) ++ [item] },
         none) ∧
      (st.projects.take k ++ st.projects.drop (k + 1)).length + 1
        = st.projects.length) ∧
    (∀ (inp : Inputs) (st : CollectionState) (k : Nat) (item : EducationEntry),
      st.education.get? k = some item → NormEdu item →
      editItem "edu-list" (k : Int) inp st =
        (none, { inp with edu_degree := item.degree, edu_institute := item.institute,
                          edu_year := item.year, edu_grade := item.grade },
         { st with education := st.education.take k ++ st.education.drop (k + 1) }) ∧
      addEdu { inp with edu_degree := item.degree, edu_institute := item.institute,
                        edu_year := item.year, edu_grade := item.grade }
          { st with education := st.education.take k ++ st.education.drop (k + 1) } =
        ({ inp with edu_degree := "", edu_institute := "", edu_year := "",
                    edu_grade := "" },
         { st with education :=
            (st.education.take k ++ st.education.drop (k + 1)) ++ [item] },
         none) ∧
      (st.education.take k ++ st.education.drop (k + 1)).length + 1
        = st.education.length) ∧
    (∀ (inp : Inputs) (st : CollectionState) (k : Nat) (item : String),
      st.achievements.get? k = some item → NormStr item →
      editItem "ach-list" (k : Int) inp st =
        (none, { inp with new_ach := item },
         { st with achievements :=
            st.achievements.take k ++ st.achievements.drop (k + 1) }) ∧
      addAch { inp with new_ach := item }
          { st with achievements :=
            st.achievements.take k ++ st.achievements.drop (k + 1) } =
        ({ inp with new_ach := "" },
         { st with achievements :=
            (st.achievements.take k ++ st.achievements.drop (k + 1)) ++ [item] },
         none) ∧
      (st.achievements.take k ++ st.achievements.drop (k + 1)).length + 1
        = st.achievements.length) := by
  refine ⟨fun inp st k item hk hn => ?_, fun inp st k item hk hn => ?_,
    fun inp st k item hk hn => ?_, fun inp st k item hk hn => ?_,
    fun inp st k item hk hn => ?_⟩
  · obtain ⟨hklen, -⟩ := List.get?_eq_some.mp hk
    have hk2 : st.skills[k]? = some item := by simpa using hk
    obtain ⟨htrim, hne⟩ := hn
    refine ⟨?_, ?_, ?_⟩
    · simp [editItem, jsIndex_natCast, hk2, spliceRemove_nat _ _ hklen]
    · simp [addSkill, htrim, if_pos hne]
    · simp [List.length_take, List.length_drop]
      omega
  · obtain ⟨hklen, -⟩ := List.get?_eq_some.mp hk
    have hk2 : st.experience[k]? = some item := by simpa using hk
    obtain ⟨ht, htne, hc, hcne, hp, hb⟩ := hn
    refine ⟨?_, ?_, ?_⟩
    · simp [editItem, jsIndex_natCast, hk2, spliceRemove_nat _ _ hklen]
    · have hentry : ExperienceEntry.mk (jsTrim item.title) (jsTrim item.company)
          (jsTrim item.period)
          ((jsSplitNl (jsJoinNl item.bullets)).filter (fun x => jsTrim x ≠ "")) = item := by
        rw [ht, hc, hp, bullets_roundtrip item.bullets hb]
      simp only [ne_eq, decide_not] at hentry
      have htne2 : jsTrim item.title ≠ "" := by rw [ht]; exact htne
      have hcne2 : jsTrim item.company ≠ "" := by rw [hc]; exact hcne
      simp [addExp, htne2, hcne2, hentry]
    · simp [List.length_take, List.length_drop]
      omega
  · obtain ⟨hklen, -⟩ := List.get?_eq_some.mp hk
    have hk2 : st.projects[k]? = some item := by simpa using hk
    obtain ⟨hna, hne, hts, hd⟩ := hn
    refine ⟨?_, ?_, ?_⟩
    · simp [editItem, jsIndex_natCast, hk2, spliceRemove_nat _ _ hklen]
    · have hentry : ProjectEntry.mk (jsTrim item.name) (jsTrim item.tech_stack)
          (jsTrim item.description) = item := by
        rw [hna, hts, hd]
      have hne2 : jsTrim item.name ≠ "" := by rw [hna]; exact hne
      simp [addProj, hne2, hentry]
    · simp [List.length_take, List.length_drop]
      omega
  · obtain ⟨hklen, -⟩ := List.get?_eq_some.mp hk
    have hk2 : st.education[k]? = some item := by simpa using hk
    obtain ⟨hdg, hdgne, hi, hy, hg⟩ := hn
    refine ⟨?_, ?_, ?_⟩
    · have hgr : (if item.grade = "" then "" else item.grade) = item.grade := by
        by_cases hzg : item.grade = "" <;> simp [hzg]
      simp [editItem, jsIndex_natCast, hk2, spliceRemove_nat _ _ hklen, hgr]
    · have hentry : EducationEntry.mk (jsTrim item.degree) (jsTrim item.institute)
          (jsTrim item.year) (jsTrim item.grade) = item := by
        rw [hdg, hi, hy, hg]
      have hdgne2 : jsTrim item.degree ≠ "" := by rw [hdg]; exact hdgne
      simp [addEdu, hdgne2, hentry]
    · simp [List.length_take, List.length_drop]
      omega
  · obtain ⟨hklen, -⟩ := List.get?_eq_some.mp hk
    have hk2 : st.achievements[k]? = some item := by simpa using hk
    obtain ⟨htrim, hne⟩ := hn
    refine ⟨?_, ?_, ?_⟩
    · simp [editItem, jsIndex_natCast, hk2, spliceRemove_nat _ _ hklen]
    · simp [addAch, htrim, if_pos hne]
    · simp [List.length_take, List.length_drop]
      omega

/-- C2 witness: the spec's scenario-2 experience entry, edited at index 0 and
re-added, comes back equal and at the end; same for a skill. -/
theorem edit_then_add_roundtrip_witness :
    NormStr "Python" ∧
    addSkill { emptyInputs with new_skill := "Python" }
        { emptyState with skills := ["Go"] } =
      ({ emptyInputs with new_skill := "" },
       { emptyState with skills := ["Go", "Python"] }, none) ∧
    NormExp { title := "Engineer", company := "Acme", period := "2020-2022",
              bullets := ["Built X", "Shipped Y"] } ∧
    editItem "experience-list" 0 emptyInputs
        { emptyState with experience :=
          [{ title := "Engineer", company := "Acme", period := "2020-2022",
             bullets := ["Built X", "Shipped Y"] }] } =
      (none,
       { emptyInputs with exp_title := "Engineer", exp_company := "Acme",
                          exp_period := "2020-2022",
                          exp_bullets := "Built X\nShipped Y" },
       emptyState) ∧
    addExp { emptyInputs with exp_title := "Engineer", exp_company := "Acme",
                              exp_period := "2020-2022",
                              exp_bullets := "Built X\nShipped Y" }
        emptyState =
      (emptyInputs,
       { emptyState with experience :=
          [{ title := "Engineer", company := "Acme", period := "2020-2022",
             bullets := ["Built X", "Shipped Y"] }] }, none) := by
  refine ⟨by decide, ?_, by decide, ?_, ?_⟩
  · have h := (edit_then_add_roundtrip.1 { emptyInputs with new_skill := "Python" }
      { emptyState with skills := ["Python", "Go"] } 0 "Python" (by decide)
      (by decide)).2.1
    simpa using h
  · have h := (edit_then_add_roundtrip.2.1 emptyInputs
      { emptyState with experience :=
        [{ title := "Engineer", company := "Acme", period := "2020-2022",
           bullets := ["Built X", "Shipped Y"] }] } 0
      { title := "Engineer", company := "Acme", period := "2020-2022",
        bullets := ["Built X", "Shipped Y"] } (by decide) (by decide)).1
    simpa using h
  · have h := (edit_then_add_roundtrip.2.1 emptyInputs
      { emptyState with experience :=
        [{ title := "Engineer", company := "Acme", period := "2020-2022",
           bullets := ["Built X", "Shipped Y"] }] } 0
      { title := "Engineer", company := "Acme", period := "2020-2022",
        bullets := ["Built X", "Shipped Y"] } (by decide) (by decide)).2.1
    simpa using h

end DocGen
